import Mathlib

/-!
Shallow embedding of the CUNY scheduler checker (`check.py`) — the `CUNY`
client class: session-expiry guard, time-window parameter generation,
day/time formatting, term parsing, enrollment decision and the class-data
parsing loop.  Network effects are abstracted: each embedded operation takes
the relevant response data (status, body text, parsed markup tree) and the
results of nested network calls (enrollment-status and enroll-attempt
oracles) as explicit arguments.  Python-level behaviour that matters to the
claims — process exit via `exit(0)`, uncaught exceptions (IndexError,
ValueError, AttributeError, KeyError), dict insertion-order semantics,
`str.split`, `int()` parsing — is modelled explicitly.
-/

/-- Outcome of running a piece of the Python code: a normal value, an
uncaught Python exception (by name), or process termination via `exit`. -/
inductive PyResult (α : Type) where
  | ok (a : α)
  | exc (name : String)
  | exit (code : Nat)
deriving DecidableEq, Repr

/-- Boolean list-prefix test (models matching a pattern at the head). -/
def listPrefixB : List Char → List Char → Bool
  | [], _ => true
  | _ :: _, [] => false
  | a :: as, b :: bs => a == b && listPrefixB as bs

/-- Boolean substring test on character lists: models Python `sub in s`. -/
def substrB (p : List Char) : List Char → Bool
  | [] => p.isEmpty
  | c :: rest => listPrefixB p (c :: rest) || substrB p rest

/-- Python `sub in s` on strings. -/
def pyIn (sub s : String) : Bool := substrB sub.data s.data

/-- Split at the first occurrence of `sep` (nonempty): returns the part
before it and the part after it, or `none` when `sep` does not occur. -/
def splitFirst (sep : List Char) : List Char → Option (List Char × List Char)
  | [] => if sep.isEmpty then some ([], []) else none
  | c :: rest =>
    if listPrefixB sep (c :: rest) then some ([], (c :: rest).drop sep.length)
    else (splitFirst sep rest).map (fun p => (c :: p.1, p.2))

/-- Python `s.split(sep)[0]`: the part before the first occurrence of `sep`
(the whole string when `sep` is absent). -/
def pySplitGet0 (sep s : List Char) : List Char :=
  match splitFirst sep s with
  | some p => p.1
  | none => s

/-- Python `s.split(sep)[1]`: the part strictly between the first and second
occurrences of `sep` (to the end if `sep` occurs once); `none` models the
`IndexError` raised when `sep` does not occur at all. -/
def pySplitGet1 (sep s : List Char) : Option (List Char) :=
  (splitFirst sep s).map fun p =>
    match splitFirst sep p.2 with
    | some q => q.1
    | none => p.2

/-- Python `s.split(c)` for a one-character separator. -/
def splitCharAux (sep : Char) : List Char → List Char → List (List Char)
  | [], acc => [acc.reverse]
  | c :: rest, acc =>
    if c == sep then acc.reverse :: splitCharAux sep rest []
    else splitCharAux sep rest (c :: acc)

/-- Python `s.split(",")` on strings. -/
def pySplitComma (s : String) : List String :=
  (splitCharAux ',' s.data []).map (fun cs => String.mk cs)

/-- ASCII whitespace as stripped by Python `int()` / `str.strip()`. -/
def isWsChar (c : Char) : Bool :=
  c == ' ' || c == '\t' || c == '\n' || c == '\r' || c == '\x0b' || c == '\x0c'

/-- Strip leading and trailing whitespace. -/
def pyStripChars (cs : List Char) : List Char :=
  ((cs.dropWhile isWsChar).reverse.dropWhile isWsChar).reverse

/-- ASCII decimal digit test. -/
def isDigitChar (c : Char) : Bool := 48 ≤ c.toNat && c.toNat ≤ 57

/-- Accumulate the value of a digit string; `none` on a non-digit. -/
def digitsValAux : List Char → Nat → Option Nat
  | [], acc => some acc
  | c :: rest, acc =>
    if isDigitChar c then digitsValAux rest (acc * 10 + (c.toNat - 48)) else none

/-- Python `int(s)` after stripping: optional sign then one or more decimal
digits (the rarely used underscore-separator extension is not modelled);
`none` models the `ValueError` raised otherwise. -/
def pyIntCore : List Char → Option Int
  | [] => none
  | '+' :: rest =>
    if rest.isEmpty then none else (digitsValAux rest 0).map Int.ofNat
  | '-' :: rest =>
    if rest.isEmpty then none else (digitsValAux rest 0).map (fun n => -(n : Int))
  | cs => (digitsValAux cs 0).map Int.ofNat

/-- Python `int(s)` on strings. -/
def pyInt (s : String) : Option Int := pyIntCore (pyStripChars s.data)

/-- Python `int(attrs.get(k, 0))`: a missing attribute defaults to the
integer `0`; a present attribute is parsed with `int()`, where `none`
models the raised `ValueError`. -/
def pyIntDefault (a : Option String) : Option Int :=
  match a with
  | none => some 0
  | some s => pyInt s

/-- Insert with Python-dict semantics: overwrite in place on key collision,
append at the end otherwise (preserves insertion order, keeps keys unique). -/
def pyUpdate {α : Type} (m : List (String × α)) (k : String) (v : α) :
    List (String × α) :=
  if (m.lookup k).isSome then m.map (fun p => if p.1 = k then (k, v) else p)
  else m ++ [(k, v)]

/-- Markup element as parsed by BeautifulSoup: tag name, attribute dict,
children in document order. -/
inductive Node where
  | mk (tag : String) (attrs : List (String × String)) (children : List Node)

/-- Tag name of a node. -/
def Node.tag : Node → String
  | .mk t _ _ => t

/-- Attribute dict of a node. -/
def Node.attrs : Node → List (String × String)
  | .mk _ a _ => a

/-- Children of a node, in document order. -/
def Node.children : Node → List Node
  | .mk _ _ c => c

/-- `node.attrs.get(k)`: attribute lookup (bs4 attribute keys are unique). -/
def Node.attr (n : Node) (k : String) : Option String := n.attrs.lookup k

mutual
/-- All strict descendants of a node in document (preorder) order, each
paired with its ancestor chain (nearest ancestor first, `anc` below them). -/
def descWithAnc : Node → List Node → List (Node × List Node)
  | Node.mk t a cs, anc => descListWithAnc cs (Node.mk t a cs :: anc)

/-- Descendants-with-ancestors of a forest of siblings. -/
def descListWithAnc : List Node → List Node → List (Node × List Node)
  | [], _ => []
  | n :: ns, anc => (n, anc) :: (descWithAnc n anc ++ descListWithAnc ns anc)
end

/-- bs4 `soup.find_all(tag)`: every descendant with this tag, document order. -/
def findAll (tag : String) (doc : Node) : List Node :=
  ((descWithAnc doc []).map Prod.fst).filter (fun n => n.tag == tag)

/-- bs4 `tag.find(name)`: first descendant with this tag, or `None`. -/
def findDescendant (tag : String) (n : Node) : Option Node :=
  (findAll tag n).head?

/-- bs4 `tag.find_parent("course")` together with that ancestor's own parent
(the next element of the ancestor chain); `none` when no such ancestor. -/
def findCourseParent : List Node → Option (Node × Option Node)
  | [] => none
  | n :: rest =>
    if n.tag == "course" then some (n, rest.head?) else findCourseParent rest

-- #### `_check_session_text` (check.py lines 79-83)

/-- The literal session-expiry marker looked for in response bodies. -/
def session_expired_marker : String :=
  "Oops, you must log into this application before loading that link."

/-- `_check_session_text`: when the response body contains the expiry marker
the code logs an error and calls `exit(0)` (the `raise CUNYException` that
the retry decorators would catch is commented out in the source); otherwise
it returns normally. -/
def check_session_text (text : String) : PyResult Unit :=
  if pyIn session_expired_marker text then PyResult.exit 0 else PyResult.ok ()

-- #### `_nWindow` (check.py lines 85-90)

/-- `_nWindow`: time-window query parameters from the current timestamp
`now` in whole seconds (`math.floor(time.time() / 60)` is `now / 60` on
natural numbers). -/
def nWindow (now : Nat) : Nat × Nat :=
  let t := (now / 60) % 1000
  (t, t % 3 + t % 39 + t % 42)

-- #### `_get_day` (check.py lines 137-147)

/-- `_get_day`: numeric day code to abbreviated day name. -/
def get_day (day : String) : String :=
  match day with
  | "1" => "Mon"
  | "2" => "Tue"
  | "3" => "Wed"
  | "4" => "Thu"
  | "5" => "Fri"
  | "6" => "Sat"
  | "7" => "Sun"
  | _ => "Unk"

-- #### `try_enroll` final decision (check.py lines 256-281)

/-- `try_enroll`'s returned value as a function of the perform-action
response: `True if response.status_code == 200 and "Failed" not in
response.text else False`.  (The two GET requests themselves are abstracted;
`status`/`body` are the perform-action response.) -/
def try_enroll (status : Nat) (body : String) : Bool :=
  if status = 200 ∧ pyIn "Failed" body = false then true else false

-- #### `_build_time` (check.py lines 149-193)

/-- Python `f"{n:02d}"`: decimal rendering zero-padded to width 2. -/
def fmt2 (n : Int) : String :=
  let s := toString n
  if s.length < 2 then "0" ++ s else s

/-- One formatted time range from two minute-of-day offsets (`t1`, `t2`),
12-hour with AM/PM when `hour12`.  Python `//` and `%` are floor division
and floor modulus, i.e. `Int.fdiv`/`Int.fmod`. -/
def timeRangeStr (hour12 : Bool) (t1 t2 : Int) : String :=
  let h1 := Int.fdiv t1 60
  let m1 := Int.fmod t1 60
  let h2 := Int.fdiv t2 60
  let m2 := Int.fmod t2 60
  if hour12 then
    let a1 := if h1 < 12 then "AM" else "PM"
    let h1 := Int.fmod h1 12
    let h1 := if h1 = 0 then 12 else h1
    let a2 := if h2 < 12 then "AM" else "PM"
    let h2 := Int.fmod h2 12
    let h2 := if h2 = 0 then 12 else h2
    fmt2 h1 ++ ":" ++ fmt2 m1 ++ " " ++ a1 ++ " to " ++ fmt2 h2 ++ ":" ++ fmt2 m2 ++ " " ++ a2
  else
    fmt2 h1 ++ ":" ++ fmt2 m1 ++ " to " ++ fmt2 h2 ++ ":" ++ fmt2 m2

/-- `days_by_time[time_str].append(day)` with first-insertion key order
(Python dict of lists). -/
def addDay : List (String × List String) → String → String → List (String × List String)
  | [], k, v => [(k, [v])]
  | (k', vs) :: rest, k, v =>
    if k' = k then (k', vs ++ [v]) :: rest else (k', vs) :: addDay rest k v

/-- The fixed Mon→Sun→Unk ordering used as sort key. -/
def dayOrderList : List String :=
  ["Mon", "Tue", "Wed", "Thu", "Fri", "Sat", "Sun", "Unk"]

/-- `day_order.index(day) if day in day_order else len(day_order)`:
`List.indexOf` already returns the length when the element is absent. -/
def dayKey (d : String) : Nat := dayOrderList.indexOf d

/-- Insertion step of sorting by `dayKey`. -/
def insertByKey (d : String) : List String → List String
  | [] => [d]
  | x :: xs => if dayKey d ≤ dayKey x then d :: x :: xs else x :: insertByKey d xs

/-- `sorted(list(set(days)), key=dayKey)`.  Day abbreviations produced by
`_get_day` are pairwise distinct keys, so insertion sort after first-kept
deduplication computes the same list as Python's stable sort over a set. -/
def sortDays (ds : List String) : List String :=
  (ds.eraseDups).foldr insertByKey []

/-- The accumulation loop of `_build_time`: walk the timeblock ids, skip ids
absent from the map (logged warning in the source), parse `t1`/`t2` with
`int()` (a non-numeric value raises `ValueError`), and group day names under
their formatted time range. -/
def daysByTimeAux (tbs : List (String × Node)) (hour12 : Bool) :
    List String → List (String × List String) → PyResult (List (String × List String))
  | [], m => PyResult.ok m
  | tid :: rest, m =>
    match tbs.lookup tid with
    | none => daysByTimeAux tbs hour12 rest m
    | some tb =>
      let day_abbr := get_day ((tb.attr "day").getD "")
      match pyIntDefault (tb.attr "t1"), pyIntDefault (tb.attr "t2") with
      | some t1, some t2 =>
          daysByTimeAux tbs hour12 rest (addDay m (timeRangeStr hour12 t1 t2) day_abbr)
      | _, _ => PyResult.exc "ValueError"

/-- `_build_time`: human-readable time string from timeblock ids and the
timeblock map; `"TBA"` when no group was formed. -/
def build_time (timeblock_ids : List String) (timeblocks : List (String × Node))
    (hour12 : Bool) : PyResult String :=
  match daysByTimeAux timeblocks hour12 timeblock_ids [] with
  | PyResult.exc e => PyResult.exc e
  | PyResult.exit n => PyResult.exit n
  | PyResult.ok m =>
    let time_parts := m.map (fun p => String.intercalate ", " (sortDays p.2) ++ ": " ++ p.1)
    PyResult.ok (if time_parts.isEmpty then "TBA" else String.intercalate "\n" time_parts)

-- #### `_get_term` parsing (check.py lines 219-238)

/-- The textual marker locating the embedded term data. -/
def entrance_marker : String := "return EE.initEntrance("

/-- A term as projected by `_get_term`. -/
structure TermEntry where
  name : String
  enrollable : Bool
deriving DecidableEq, Repr

/-- One entry of the JSON object embedded in the criteria page, at the
granularity `_get_term` reads it (`.get('name')`, `.get('enrollable')`). -/
structure TermJsonEntry where
  name : Option String
  enrollable : Option Bool

/-- The projection loop of `_get_term`: build `term_map` with defaults
`"Unknown Term"` / `False`. -/
def term_map_of (tj : List (String × TermJsonEntry)) : List (String × TermEntry) :=
  tj.foldl (fun m p =>
    pyUpdate m p.1 ⟨(p.2.name).getD "Unknown Term", (p.2.enrollable).getD false⟩) []

/-- The parsing path of `_get_term` (the un-memoized branch): split the
response body on the marker and take index 1 (`IndexError` when the marker
is absent), cut at the first `");"`, then `json.loads` — modelled by the
`loads` argument, `none` standing for a raised `JSONDecodeError` — and
project the term map. -/
def get_term_parse (text : String)
    (loads : String → Option (List (String × TermJsonEntry))) :
    PyResult (List (String × TermEntry)) :=
  match pySplitGet1 entrance_marker.data text.data with
  | none => PyResult.exc "IndexError"
  | some seg =>
    match loads (String.mk (pySplitGet0 ");".data seg)) with
    | none => PyResult.exc "JSONDecodeError"
    | some tj => PyResult.ok (term_map_of tj)

-- #### `_get_colleges` response projection (check.py lines 201-211)

/-- One entry of the string-to-filter response, at the granularity
`_get_colleges` reads it. -/
structure SearchEntry where
  cnKey : Option String
  va : String

/-- `{course['cnKey']: course['va'] for course in response.json() if 'cnKey'
in course}`: dict comprehension with insert-overwrite in order. -/
def get_colleges_map (entries : List SearchEntry) : List (String × String) :=
  entries.foldl (fun m e =>
    match e.cnKey with
    | some k => pyUpdate m k e.va
    | none => m) []

-- #### seat parsing inside `get_class_data` (check.py lines 329-346)

/-- The `try`/`except ValueError`/`else` block computing the waitlist text,
seats text and availability flag from the `wc`, `ws`, `me`, `os` attributes:
the triple is `(waitlist_str, seats_str, available)` with `available` `1`
(open), `0` (closed) or `-1` (parse failure sentinel). -/
def seatInfo (wc ws me os : Option String) : String × String × Int :=
  match pyIntDefault wc, pyIntDefault ws, pyIntDefault me, pyIntDefault os with
  | some waitlist_cap, some waitlist_students, some max_enrollment, some open_seats_val =>
    let waitlist_available := waitlist_cap - waitlist_students
    let seats_available := open_seats_val
    let is_open : Bool := decide (0 < waitlist_students) || decide (0 < seats_available)
    (toString waitlist_available ++ "/" ++ toString waitlist_cap,
     toString (max_enrollment - seats_available) ++ "/" ++ toString max_enrollment,
     if is_open then 1 else 0)
  | _, _, _, _ => ("Err/Err", "Err/Err", -1)

-- #### `get_class_data` (check.py lines 289-378)

/-- One emitted dict of `get_class_data` (`class_data.append({...})`). -/
structure Record where
  courseNumber : String
  courseCode : String
  term : String
  college : String
  instructor : String
  time : String
  waitlist : String
  seats : String
  available : Int
  enrolled : Bool
deriving DecidableEq, Repr

/-- Ambient data of one `get_class_data` call: the term id, the cached term
map, the wanted section codes, the timeblock map built from the response,
and the outcomes of the nested network calls (`get_enrollment_status` keyed
by course number, `try_enroll` keyed by selection key and va). -/
structure Ctx where
  term : String
  terms : List (String × TermEntry)
  codes : List String
  tbMap : List (String × Node)
  enrolledOracle : String → Bool
  enrollOracle : String → String → Bool

/-- The body of the `for course_section in soup.find_all("block")` loop for
one matching block (its `key` attribute `section_code` is already known to
be in the wanted codes): resolve the course ancestor, its parent's `campus`
descendant (an absent ancestor or campus raises `AttributeError` via an
attribute access on `None`), compute seat texts, run the enrollment branch
when `available == 1` (`.ok none` models the `continue` taken when the
enrollment-status lookup reports the course as already enrolled), look up
the term name (`KeyError` when the term id is not cached) and build the
time string.  `.ok (some r)` is the appended record. -/
def processBlock (ctx : Ctx) (section_code : String) (b : Node) (anc : List Node) :
    PyResult (Option Record) :=
  match findCourseParent anc with
  | none => PyResult.exc "AttributeError"
  | some (pc, pcParent?) =>
    match pcParent? with
    | none => PyResult.exc "AttributeError"
    | some pcParent =>
      match findDescendant "campus" pcParent with
      | none => PyResult.exc "AttributeError"
      | some campus =>
        let college := (campus.attr "v").getD "N/A"
        let course_number := (pc.attr "key").getD "N/A"
        let timeblock_ids := pySplitComma ((b.attr "timeblockids").getD "")
        let valid_timeblock_ids := timeblock_ids.filter (fun t => !t.isEmpty)
        let seat := seatInfo (b.attr "wc") (b.attr "ws") (b.attr "me") (b.attr "os")
        let step : PyResult (Option Bool) :=
          if seat.2.2 = 1 then
            match anc.find? (fun n => n.tag == "selection") with
            | none => PyResult.exc "AttributeError"
            | some sel =>
              if ctx.enrolledOracle course_number then PyResult.ok none
              else PyResult.ok (some (ctx.enrollOracle ((sel.attr "key").getD "N/A")
                ((sel.attr "va").getD "N/A")))
          else PyResult.ok (some false)
        match step with
        | PyResult.exc e => PyResult.exc e
        | PyResult.exit n => PyResult.exit n
        | PyResult.ok none => PyResult.ok none
        | PyResult.ok (some enrolled) =>
          match ctx.terms.lookup ctx.term with
          | none => PyResult.exc "KeyError"
          | some te =>
            match build_time valid_timeblock_ids ctx.tbMap true with
            | PyResult.exc e => PyResult.exc e
            | PyResult.exit n => PyResult.exit n
            | PyResult.ok timeStr =>
              PyResult.ok (some
                { courseNumber := course_number
                  courseCode := section_code
                  term := te.name
                  college := college
                  instructor := (b.attr "teacher").getD "N/A"
                  time := timeStr
                  waitlist := seat.1
                  seats := seat.2.1
                  available := seat.2.2
                  enrolled := enrolled })

/-- The whole block loop: skip blocks whose `key` attribute is missing or
not wanted, process the rest in document order, propagating exceptions and
process exits and dropping blocks for which the body `continue`d. -/
def gcdLoop (ctx : Ctx) : List (Node × List Node) → PyResult (List Record)
  | [] => PyResult.ok []
  | (b, anc) :: rest =>
    match b.attr "key" with
    | none => gcdLoop ctx rest
    | some k =>
      if k ∈ ctx.codes then
        match processBlock ctx k b anc with
        | PyResult.exc e => PyResult.exc e
        | PyResult.exit n => PyResult.exit n
        | PyResult.ok none => gcdLoop ctx rest
        | PyResult.ok (some r) =>
          match gcdLoop ctx rest with
          | PyResult.exc e => PyResult.exc e
          | PyResult.exit n => PyResult.exit n
          | PyResult.ok rs => PyResult.ok (r :: rs)
      else gcdLoop ctx rest

/-- All `block` elements of the response document with their ancestor
chains, document order. -/
def blocksWithAnc (doc : Node) : List (Node × List Node) :=
  (descWithAnc doc []).filter (fun p => p.1.tag == "block")

/-- The matching blocks: `block` elements whose `key` attribute is present
and among the wanted section codes. -/
def matchingBlocks (doc : Node) (codes : List String) : List (Node × List Node) :=
  (descWithAnc doc []).filter (fun p =>
    p.1.tag == "block" && (p.1.attr "key").any (fun k => decide (k ∈ codes)))

/-- `get_class_data` from the point where the college map has been resolved:
when the map is empty, return `[]` before the class-data request (`issued`
= `false`); otherwise issue the request (its response is `respText` /
`respDoc`), run the session-expiry check, build the timeblock map (ids that
are absent or empty strings are excluded by the comprehension's truthiness
filter) and run the block loop. -/
def get_class_data (term : String) (terms : List (String × TermEntry))
    (course_codes : List String) (course_college_map : List (String × String))
    (respText : String) (respDoc : Node)
    (enrolledOracle : String → Bool) (enrollOracle : String → String → Bool) :
    Bool × PyResult (List Record) :=
  if course_college_map.isEmpty then (false, PyResult.ok [])
  else
    match check_session_text respText with
    | PyResult.exit n => (true, PyResult.exit n)
    | PyResult.exc e => (true, PyResult.exc e)
    | PyResult.ok _ =>
      let tbMap := (findAll "timeblock" respDoc).foldl (fun m tb =>
        match tb.attr "id" with
        | some i => if i.isEmpty then m else pyUpdate m i tb
        | none => m) []
      let ctx : Ctx := ⟨term, terms, course_codes, tbMap, enrolledOracle, enrollOracle⟩
      (true, gcdLoop ctx (blocksWithAnc respDoc))


-- #### Projections used to state properties of the block loop

/-- The `course_number` computed for a block with ancestor chain `anc`
(check.py line 324): the `key` attribute of the nearest `course` ancestor,
`"N/A"` when missing. -/
def courseNumberOf (anc : List Node) : String :=
  match findCourseParent anc with
  | some (pc, _) => (pc.attr "key").getD "N/A"
  | none => "N/A"

/-- The seat triple `(waitlist_str, seats_str, available)` of a block. -/
def seatOf (b : Node) : String × String × Int :=
  seatInfo (b.attr "wc") (b.attr "ws") (b.attr "me") (b.attr "os")

/-- What the loop body contributes for one traversed block: `none` when the
block is skipped (missing or unwanted `key`, or the body `continue`d or
failed), `some r` when a record is appended. -/
def emitOf (ctx : Ctx) (p : Node × List Node) : Option Record :=
  match p.1.attr "key" with
  | none => none
  | some k =>
    if k ∈ ctx.codes then
      match processBlock ctx k p.1 p.2 with
      | PyResult.ok r => r
      | _ => none
    else none

-- #### Concrete inputs used by the theorems below

/-- A response document with exactly one wanted block (`key` `"12345"`),
open via the waitlist, inside a `course` within a `selection` whose parent
also holds the `campus` element. -/
def enrolledDropDoc : Node :=
  Node.mk "doc" []
    [Node.mk "selection" [("key", "SK1"), ("va", "V1")]
      [Node.mk "course" [("key", "CSC 101")]
        [Node.mk "block" [("key", "12345"), ("wc", "5"), ("ws", "1"), ("me", "30"),
          ("os", "0"), ("timeblockids", "")] []],
       Node.mk "campus" [("v", "LAG")] []]]

/-- The call context for `enrolledDropDoc` in which the enrollment-status
lookup reports every course as already enrolled. -/
def dropCtx : Ctx :=
  ⟨"T1", [("T1", ⟨"Fall 2026", true⟩)], ["12345"], [], (fun _ => true), (fun _ _ => true)⟩

-- #### Helper lemmas

/-- If the separator does not occur as a substring, `splitFirst` finds
nothing. -/
theorem splitFirst_eq_none_of_substrB_false (sep : List Char) :
    ∀ s : List Char, substrB sep s = false → splitFirst sep s = none := by
  intro s
  induction s with
  | nil =>
    intro h
    simp only [substrB, List.isEmpty] at h
    cases sep with
    | nil => simp at h
    | cons c cs => simp [splitFirst]
  | cons c rest ih =>
    intro h
    simp only [substrB, Bool.or_eq_false_iff] at h
    simp [splitFirst, h.1, ih h.2]

/-- A successful run of the block loop is the in-order `filterMap` of the
per-block contribution. -/
theorem gcdLoop_ok_filterMap (ctx : Ctx) :
    ∀ (L : List (Node × List Node)) (out : List Record),
      gcdLoop ctx L = PyResult.ok out → out = L.filterMap (emitOf ctx) := by
  intro L
  induction L with
  | nil =>
    intro out h
    simp only [gcdLoop, PyResult.ok.injEq] at h
    simp [h.symm]
  | cons p rest ih =>
    obtain ⟨b, anc⟩ := p
    intro out h
    simp only [gcdLoop] at h
    split at h
    next hk =>
      simp [List.filterMap_cons, emitOf, hk, ih out h]
    next k hk =>
      split at h
      next hm =>
        split at h
        next e hp => exact absurd h (by simp)
        next n hp => exact absurd h (by simp)
        next hp =>
          simp [List.filterMap_cons, emitOf, hk, hm, hp, ih out h]
        next r hp =>
          split at h
          next e hg => exact absurd h (by simp)
          next n hg => exact absurd h (by simp)
          next rs hg =>
            simp only [PyResult.ok.injEq] at h
            simp only [List.filterMap_cons, emitOf, hk, if_pos hm, hp]
            rw [← h, ih rs hg]
      next hm =>
        simp [List.filterMap_cons, emitOf, hk, hm, ih out h]

/-- Inversion for a non-crashing run of the loop body: a dropped block
(`continue`) implies availability `1` and a positive enrollment-status
lookup for its course number; an emitted record carries exactly the seat
triple of its block and the section code it matched. -/
theorem processBlock_ok_inv (ctx : Ctx) (k : String) (b : Node) (anc : List Node)
    (r : Option Record) (h : processBlock ctx k b anc = PyResult.ok r) :
    (r = none → (seatOf b).2.2 = 1 ∧ ctx.enrolledOracle (courseNumberOf anc) = true) ∧
    (∀ rec : Record, r = some rec →
      rec.waitlist = (seatOf b).1 ∧ rec.seats = (seatOf b).2.1 ∧
      rec.available = (seatOf b).2.2 ∧ rec.courseCode = k) := by
  simp only [processBlock] at h
  cases hc : findCourseParent anc with
  | none => simp [hc] at h
  | some x =>
    obtain ⟨pc, pp⟩ := x
    simp only [hc] at h
    cases pp with
    | none => simp at h
    | some pcParent =>
      cases hcamp : findDescendant "campus" pcParent with
      | none => simp [hcamp] at h
      | some campus =>
        simp only [hcamp] at h
        by_cases hav : (seatInfo (b.attr "wc") (b.attr "ws") (b.attr "me") (b.attr "os")).2.2 = 1
        · simp only [hav, if_true] at h
          cases hsel : anc.find? (fun n => n.tag == "selection") with
          | none => simp [hsel] at h
          | some sel =>
            simp only [hsel] at h
            by_cases hen : ctx.enrolledOracle ((pc.attr "key").getD "N/A") = true
            · simp only [hen, if_true] at h
              simp only [PyResult.ok.injEq] at h
              constructor
              · intro _
                refine ⟨hav, ?_⟩
                simpa [courseNumberOf, hc] using hen
              · intro rec hrec
                rw [← h] at hrec
                exact absurd hrec (by simp)
            · simp only [hen, Bool.false_eq_true, if_false] at h
              cases hl : ctx.terms.lookup ctx.term with
              | none => simp [hl] at h
              | some te =>
                simp only [hl] at h
                cases hbt : build_time ((pySplitComma ((b.attr "timeblockids").getD "")).filter
                    (fun t => !t.isEmpty)) ctx.tbMap true with
                | exc e => simp [hbt] at h
                | exit n => simp [hbt] at h
                | ok timeStr =>
                  simp only [hbt, PyResult.ok.injEq] at h
                  constructor
                  · intro hr; rw [← h] at hr; exact absurd hr (by simp)
                  · intro rec hrec
                    rw [← h] at hrec
                    simp only [Option.some.injEq] at hrec
                    rw [← hrec]
                    exact ⟨rfl, rfl, by simp [seatOf, hav], rfl⟩
        · simp only [hav, if_false] at h
          cases hl : ctx.terms.lookup ctx.term with
          | none => simp [hl] at h
          | some te =>
            simp only [hl] at h
            cases hbt : build_time ((pySplitComma ((b.attr "timeblockids").getD "")).filter
                (fun t => !t.isEmpty)) ctx.tbMap true with
            | exc e => simp [hbt] at h
            | exit n => simp [hbt] at h
            | ok timeStr =>
              simp only [hbt, PyResult.ok.injEq] at h
              constructor
              · intro hr; rw [← h] at hr; exact absurd hr (by simp)
              · intro rec hrec
                rw [← h] at hrec
                simp only [Option.some.injEq] at hrec
                rw [← hrec]
                exact ⟨rfl, rfl, rfl, rfl⟩

/-- Any single parse failure among the four seat attributes degrades the
whole seat triple to the error sentinel. -/
theorem seatInfo_sentinel (wc ws me os : Option String)
    (h : pyIntDefault wc = none ∨ pyIntDefault ws = none ∨ pyIntDefault me = none ∨
      pyIntDefault os = none) :
    seatInfo wc ws me os = ("Err/Err", "Err/Err", -1) := by
  cases h1 : pyIntDefault wc with
  | none => simp [seatInfo, h1]
  | some a =>
    cases h2 : pyIntDefault ws with
    | none => simp [seatInfo, h1, h2]
    | some b =>
      cases h3 : pyIntDefault me with
      | none => simp [seatInfo, h1, h2, h3]
      | some c =>
        cases h4 : pyIntDefault os with
        | none => simp [seatInfo, h1, h2, h3, h4]
        | some d => simp [h1, h2, h3, h4] at h

-- #### Claim theorems

/-- Claim C1: the session-expiry marker in a response body does not raise
the recoverable session-expired condition that the bounded relogin-retry
decorators would catch — `_check_session_text` logs and terminates the
process via `exit(0)`, so no forced re-login and no retry of the original
call ever happens. -/
theorem check_session_text_exits (t : String)
    (h : pyIn session_expired_marker t = true) :
    check_session_text t = PyResult.exit 0 := by
  simp [check_session_text, h]

/-- Witness for `check_session_text_exits` at a concrete response body. -/
theorem check_session_text_exits_witness :
    check_session_text session_expired_marker = PyResult.exit 0 :=
  check_session_text_exits session_expired_marker (by decide)

/-- Claim C2: the core operations do not always report failures as error
values or exceptions — a reachable response body (one containing the
session-expiry marker) makes `_check_session_text`, which runs inside the
term fetch, college resolution, enrollment-status and class-data
operations, terminate the process with exit code 0. -/
theorem core_exits_process_on_marker :
    check_session_text ("<html><body>" ++ session_expired_marker ++ "</body></html>")
      = PyResult.exit 0 := by decide

/-- Claim C3 counterexample: a document with exactly one block matching the
wanted section codes on which `get_class_data` returns no record at all —
the block is available and the enrollment-status lookup reports the course
as already enrolled, so the loop `continue`s and drops the matching block. -/
theorem get_class_data_drops_enrolled_cex :
    get_class_data "T1" [("T1", ⟨"Fall 2026", true⟩)] ["12345"] [("CSC 101", "LAG")]
        "resp" enrolledDropDoc (fun _ => true) (fun _ _ => true)
      = (true, PyResult.ok []) ∧
    (matchingBlocks enrolledDropDoc ["12345"]).length = 1 := by decide

/-- Claim C3 (amended): in a run of the block loop that raises no exception
and does not exit, `get_class_data` emits records by the per-block
contribution in document order, and the only way a wanted block contributes
no record is the already-enrolled skip: its availability flag is `1` and
the enrollment-status lookup keyed by its course number returned `True`. -/
theorem get_class_data_emission_amended :
    (∀ (ctx : Ctx) (L : List (Node × List Node)) (out : List Record),
        gcdLoop ctx L = PyResult.ok out → out = L.filterMap (emitOf ctx)) ∧
    (∀ (ctx : Ctx) (k : String) (b : Node) (anc : List Node),
        processBlock ctx k b anc = PyResult.ok none →
        (seatOf b).2.2 = 1 ∧ ctx.enrolledOracle (courseNumberOf anc) = true) :=
  ⟨fun ctx L out h => gcdLoop_ok_filterMap ctx L out h,
   fun ctx k b anc h => (processBlock_ok_inv ctx k b anc none h).1 rfl⟩

/-- Witness for `get_class_data_emission_amended` at the concrete
dropped-block run. -/
theorem get_class_data_emission_amended_witness :
    ([] : List Record) = (blocksWithAnc enrolledDropDoc).filterMap (emitOf dropCtx) :=
  get_class_data_emission_amended.1 dropCtx (blocksWithAnc enrolledDropDoc) [] (by decide)

/-- Claim C4 counterexample: a response body without the term-data marker
makes the term-fetch parsing raise `IndexError` (out-of-range index into
the split result) rather than return an empty mapping. -/
theorem get_term_missing_marker_cex :
    get_term_parse "<html>no data here</html>" (fun _ => none) = PyResult.exc "IndexError" ∧
    get_term_parse "<html>no data here</html>" (fun _ => none)
      ≠ PyResult.ok ([] : List (String × TermEntry)) := by decide

/-- Claim C4 (amended): on a parsing failure `_get_term` raises instead of
returning an empty mapping — `IndexError` when the marker is absent from
the body, and the `json.loads` decode error when the bracketed data is
malformed. -/
theorem get_term_parse_raises_amended :
    (∀ (text : String) (loads : String → Option (List (String × TermJsonEntry))),
        pyIn entrance_marker text = false →
        get_term_parse text loads = PyResult.exc "IndexError") ∧
    (∀ (text : String) (loads : String → Option (List (String × TermJsonEntry)))
        (seg : List Char),
        pySplitGet1 entrance_marker.data text.data = some seg →
        loads (String.mk (pySplitGet0 ");".data seg)) = none →
        get_term_parse text loads = PyResult.exc "JSONDecodeError") := by
  constructor
  · intro text loads h
    have h1 : pySplitGet1 entrance_marker.data text.data = none := by
      simp only [pySplitGet1,
        splitFirst_eq_none_of_substrB_false _ _ (by simpa [pyIn] using h),
        Option.map_none']
    simp [get_term_parse, h1]
  · intro text loads seg h1 h2
    simp [get_term_parse, h1, h2]

/-- Witness for `get_term_parse_raises_amended` at a concrete marker-free
body. -/
theorem get_term_parse_raises_amended_witness :
    get_term_parse "nothing" (fun _ => none) = PyResult.exc "IndexError" :=
  get_term_parse_raises_amended.1 "nothing" (fun _ => none) (by decide)

/-- Claim C5: for sections whose four seat attributes parse as integers the
availability flag is `1` exactly when waitlist-filled or open seats are
positive, the seats text is `(me - os)/me`, the waitlist text is
`(wc - ws)/wc`; an emitted record carries exactly the seat triple of its
block, and the spec's three concrete vectors evaluate as claimed. -/
theorem seat_availability_formula (wc ws me os : Option String) (a b c d : Int)
    (hwc : pyIntDefault wc = some a) (hws : pyIntDefault ws = some b)
    (hme : pyIntDefault me = some c) (hos : pyIntDefault os = some d) :
    ((seatInfo wc ws me os).2.2 = 1 ↔ 0 < b ∨ 0 < d) ∧
    (seatInfo wc ws me os).2.1 = toString (c - d) ++ "/" ++ toString c ∧
    (seatInfo wc ws me os).1 = toString (a - b) ++ "/" ++ toString a ∧
    (∀ (ctx : Ctx) (k : String) (blk : Node) (anc : List Node) (rec : Record),
        processBlock ctx k blk anc = PyResult.ok (some rec) →
        rec.waitlist = (seatOf blk).1 ∧ rec.seats = (seatOf blk).2.1 ∧
        rec.available = (seatOf blk).2.2) ∧
    seatInfo (some "5") (some "2") (some "30") (some "0") = ("3/5", "30/30", 1) ∧
    (seatInfo (some "5") (some "0") (some "30") (some "4")).2.1 = "26/30" ∧
    (seatInfo (some "5") (some "0") (some "30") (some "4")).2.2 = 1 ∧
    (seatInfo (some "5") (some "0") (some "30") (some "0")).2.2 = 0 := by
  refine ⟨?_, ?_, ?_, ?_, by decide, by decide, by decide, by decide⟩
  · by_cases hb : (0 : Int) < b <;> by_cases hd : (0 : Int) < d <;>
      simp [seatInfo, hwc, hws, hme, hos, hb, hd]
  · simp [seatInfo, hwc, hws, hme, hos]
  · simp [seatInfo, hwc, hws, hme, hos]
  · intro ctx k blk anc rec h
    obtain ⟨h1, h2, h3, _⟩ := (processBlock_ok_inv ctx k blk anc (some rec) h).2 rec rfl
    exact ⟨h1, h2, h3⟩

/-- Witness for `seat_availability_formula` at the spec's first vector. -/
theorem seat_availability_formula_witness :
    (seatInfo (some "5") (some "2") (some "30") (some "0")).2.2 = 1 ↔
      (0 : Int) < 2 ∨ (0 : Int) < 0 :=
  (seat_availability_formula (some "5") (some "2") (some "30") (some "0") 5 2 30 0
    (by decide) (by decide) (by decide) (by decide)).1

/-- Claim C6: a parse failure of any of `wc`/`ws`/`me`/`os` degrades the
seat triple to the sentinel `("Err/Err", "Err/Err", -1)`, and a sentinel
block is never dropped by the loop body: whenever it is processed without
an exception, a record with the sentinel texts and availability `-1` is
still emitted, leaving the count of output records unchanged. -/
theorem seat_parse_failure_sentinel :
    (∀ wc ws me os : Option String,
        pyIntDefault wc = none ∨ pyIntDefault ws = none ∨ pyIntDefault me = none ∨
          pyIntDefault os = none →
        seatInfo wc ws me os = ("Err/Err", "Err/Err", -1)) ∧
    (∀ (ctx : Ctx) (k : String) (b : Node) (anc : List Node) (r : Option Record),
        seatOf b = ("Err/Err", "Err/Err", -1) →
        processBlock ctx k b anc = PyResult.ok r →
        ∃ rec : Record, r = some rec ∧ rec.waitlist = "Err/Err" ∧
          rec.seats = "Err/Err" ∧ rec.available = -1) := by
  constructor
  · exact seatInfo_sentinel
  · intro ctx k b anc r hs h
    obtain ⟨hnone, hsome⟩ := processBlock_ok_inv ctx k b anc r h
    cases r with
    | none =>
      exfalso
      have hav := (hnone rfl).1
      rw [hs] at hav
      norm_num at hav
    | some rec =>
      obtain ⟨h1, h2, h3, _⟩ := hsome rec rfl
      exact ⟨rec, rfl, by rw [h1, hs], by rw [h2, hs], by rw [h3, hs]⟩

/-- Witness for `seat_parse_failure_sentinel` at a concrete non-numeric
attribute. -/
theorem seat_parse_failure_sentinel_witness :
    seatInfo (some "N/A") (some "0") (some "30") (some "0")
      = ("Err/Err", "Err/Err", -1) :=
  seat_parse_failure_sentinel.1 (some "N/A") (some "0") (some "30") (some "0")
    (Or.inl (by decide))

/-- Claim C7 counterexample: at `now = 12000` seconds `_nWindow` yields
`t = 200` and `e = 200 % 3 + 200 % 39 + 200 % 42 = 2 + 5 + 32 = 39`, not
the claimed `42` (the claim's step `200 % 39 = 8` is wrong; it is `5`). -/
theorem nWindow_at_12000_cex :
    nWindow 12000 = (200, 39) ∧ nWindow 12000 ≠ (200, 42) := by decide

/-- Claim C7 (amended): `_nWindow` deterministically computes
`t = floor(now/60) mod 1000` and `e = t%3 + t%39 + t%42`; at `now = 12000`
seconds it yields `t = 200` and `e = 2 + 5 + 32 = 39`. -/
theorem nWindow_formula_amended :
    (∀ now : Nat,
        nWindow now = (now / 60 % 1000,
          now / 60 % 1000 % 3 + now / 60 % 1000 % 39 + now / 60 % 1000 % 42)) ∧
    nWindow 12000 = (200, 200 % 3 + 200 % 39 + 200 % 42) ∧
    nWindow 12000 = (200, 2 + 5 + 32) :=
  ⟨fun _ => rfl, by decide, by decide⟩

/-- Claim C8: in 12-hour mode `_build_time` groups distinct days sharing an
identical formatted range (comma-separated, ordered Mon→Sun→Unk) and joins
distinct ranges with newlines; the spec's two timeblocks format to
`"Mon, Wed: 09:00 AM to 10:15 AM"`, and an empty timeblock id list formats
to `"TBA"` for every timeblock map. -/
theorem build_time_grouping_spec :
    build_time ["a", "b"]
        [("a", Node.mk "timeblock" [("day", "1"), ("t1", "540"), ("t2", "615")] []),
         ("b", Node.mk "timeblock" [("day", "3"), ("t1", "540"), ("t2", "615")] [])] true
      = PyResult.ok "Mon, Wed: 09:00 AM to 10:15 AM" ∧
    (∀ tbs : List (String × Node), build_time [] tbs true = PyResult.ok "TBA") ∧
    build_time ["w", "t", "m", "u"]
        [("w", Node.mk "timeblock" [("day", "3"), ("t1", "540"), ("t2", "615")] []),
         ("t", Node.mk "timeblock" [("day", "2"), ("t1", "1080"), ("t2", "1155")] []),
         ("m", Node.mk "timeblock" [("day", "1"), ("t1", "540"), ("t2", "615")] []),
         ("u", Node.mk "timeblock" [("day", "9"), ("t1", "1080"), ("t2", "1155")] [])] true
      = PyResult.ok "Mon, Wed: 09:00 AM to 10:15 AM\nTue, Unk: 06:00 PM to 07:15 PM" :=
  ⟨by decide, fun _ => rfl, by decide⟩

/-- Claim C9 counterexample: a `201` perform-action response without
`"Failed"` in its body is a 2xx success by the claim, yet `try_enroll`
returns `False` — the code tests `status_code == 200`, not 2xx. -/
theorem try_enroll_2xx_cex :
    try_enroll 201 "<ok/>" = false ∧ 200 ≤ 201 ∧ 201 < 300 ∧
      pyIn "Failed" "<ok/>" = false := by decide

/-- Claim C9 (amended): `try_enroll` returns `True` exactly when the
perform-action response status is exactly `200` and its body does not
contain the literal substring `"Failed"`; every other outcome is `False`. -/
theorem try_enroll_status_amended :
    ∀ (status : Nat) (body : String),
      try_enroll status body = true ↔ status = 200 ∧ pyIn "Failed" body = false := by
  intro s b
  by_cases h : s = 200 ∧ pyIn "Failed" b = false <;> simp [try_enroll, h]

/-- Claim C10: when college resolution yields an empty mapping,
`get_class_data` returns an empty list without issuing the class-data
request (`issued = false`) and without raising; a genuinely empty fetch
(non-empty mapping, a response with no matching block) returns the same
empty list, so the caller cannot tell the two apart from the return
value. -/
theorem get_class_data_empty_colleges :
    (∀ entries : List SearchEntry, get_colleges_map entries = [] →
        ∀ (term : String) (terms : List (String × TermEntry)) (codes : List String)
          (respText : String) (respDoc : Node) (o1 : String → Bool)
          (o2 : String → String → Bool),
          get_class_data term terms codes (get_colleges_map entries) respText respDoc o1 o2
            = (false, PyResult.ok [])) ∧
    get_class_data "T1" [("T1", ⟨"Fall 2026", true⟩)] ["99"] [("CSC 101", "LAG")] ""
        (Node.mk "data" [] []) (fun _ => false) (fun _ _ => false)
      = (true, PyResult.ok []) := by
  constructor
  · intro entries he term terms codes rt rd o1 o2
    rw [he]
    simp [get_class_data]
  · decide

/-- Witness for `get_class_data_empty_colleges` at the empty lookup
response. -/
theorem get_class_data_empty_colleges_witness :
    get_class_data "T" [] [] (get_colleges_map []) "x" (Node.mk "d" [] [])
        (fun _ => false) (fun _ _ => false) = (false, PyResult.ok []) :=
  get_class_data_empty_colleges.1 [] rfl "T" [] [] "x" (Node.mk "d" [] [])
    (fun _ => false) (fun _ _ => false)
